import Mathlib

/-!
Verification development for the AIY CWC server
(packages/aiy-cwc-server/server.py): a WebSocket service that accepts a
"run" request, stages the supplied files in a temporary directory, spawns
the requested child process, streams its stdout/stderr back as base64
payloads, forwards stdin bytes and signal requests, and finally reports
the exit code.

The shallow embedding below translates the relevant Python functions into
Lean definitions. Inbound JSON objects are modeled by the record JMsg of
the fields the server ever touches; the Python dict operations
msg.get(k) and msg[k] become Option field access, with missing required
keys surfacing as PyErr.keyError (the KeyError Python raises). Byte
strings are lists of Nat (each < 256).
-/

deriving instance DecidableEq for Except

/-- Exceptions that the modeled code paths can raise. -/
inductive PyErr
  | keyError
  | fileNotFound
  deriving DecidableEq, Repr

/-- Inbound JSON message, restricted to the fields server.py reads.
A field is none when the key is absent from the JSON object. -/
structure JMsg where
  type : Option String
  args : Option (List String)
  chunk_size : Option Nat
  stdout : Option String
  stderr : Option String
  env : Option (List (String × String))
  files : Option (List (String × String))
  signum : Option Int
  data : Option String
  deriving DecidableEq, Repr

/-- Shorthand for a JSON object with type "run" and the given optional fields. -/
def runJ (args : Option (List String)) (chunk_size : Option Nat)
    (stdout stderr : Option String)
    (env files : Option (List (String × String))) : JMsg :=
  ⟨some "run", args, chunk_size, stdout, stderr, env, files, none, none⟩

/-- Shorthand for a JSON object with type "stdin" and an optional data field. -/
def stdinJ (data : Option String) : JMsg :=
  ⟨some "stdin", none, none, none, none, none, none, none, data⟩

/-- Shorthand for a JSON object with type "signal" and an optional signum field. -/
def signalJ (signum : Option Int) : JMsg :=
  ⟨some "signal", none, none, none, none, none, none, signum, none⟩

/-- Value of a base64 alphabet character (RFC 4648), none for every other
character; base64.b64decode discards characters outside the alphabet,
including the padding "=" once its effect on length is accounted for. -/
def b64val (c : Char) : Option Nat :=
  if 65 ≤ c.toNat ∧ c.toNat ≤ 90 then some (c.toNat - 65)
  else if 97 ≤ c.toNat ∧ c.toNat ≤ 122 then some (c.toNat - 97 + 26)
  else if 48 ≤ c.toNat ∧ c.toNat ≤ 57 then some (c.toNat - 48 + 52)
  else if c = '+' then some 62
  else if c = '/' then some 63
  else none

/-- Reassemble bytes from 6-bit groups: 4 sextets give 3 bytes, a trailing
group of 2 or 3 sextets (the padded case) gives 1 or 2 bytes. -/
def b64chunks : List Nat → List Nat
  | a :: b :: c :: d :: rest =>
      (a * 4 + b / 16) :: ((b % 16) * 16 + c / 4) :: ((c % 4) * 64 + d) :: b64chunks rest
  | [a, b] => [a * 4 + b / 16]
  | [a, b, c] => [a * 4 + b / 16, (b % 16) * 16 + c / 4]
  | _ => []

/-- base64.b64decode on a UTF-8 string, as called in parse_stdin_msg
(server.py line 154): keep alphabet characters, decode sextet groups. -/
def b64decode (s : String) : List Nat :=
  b64chunks (s.data.filterMap b64val)

/-- validate_msg (server.py lines 133-134): the default validator performs
no validation and returns the message unchanged. -/
def validate_msg (m : JMsg) : JMsg := m

/-- Tuple returned by parse_run_msg (server.py lines 139-144). -/
structure RunTuple where
  args : List String
  chunk_size : Nat
  stdout : String
  stderr : String
  env : List (String × String)
  files : List (String × String)
  deriving DecidableEq, Repr

/-- parse_run_msg (server.py lines 136-144): None unless type is "run";
msg[args] raises KeyError when absent; the optional fields fall back to
1024, "pipe", "pipe", empty dict, empty dict via msg.get. -/
def parse_run_msg (m : JMsg) : Except PyErr (Option RunTuple) :=
  if (validate_msg m).type ≠ some "run" then .ok none
  else match m.args with
    | none => .error .keyError
    | some a =>
        .ok (some ⟨a, m.chunk_size.getD 1024, m.stdout.getD "pipe",
                   m.stderr.getD "pipe", m.env.getD [], m.files.getD []⟩)

/-- parse_signal_msg (server.py lines 146-149): None unless type is
"signal"; msg[signum] raises KeyError when absent. -/
def parse_signal_msg (m : JMsg) : Except PyErr (Option Int) :=
  if (validate_msg m).type ≠ some "signal" then .ok none
  else match m.signum with
    | none => .error .keyError
    | some n => .ok (some n)

/-- parse_stdin_msg (server.py lines 151-154): None unless type is
"stdin"; msg[data] raises KeyError when absent, otherwise the data field
is base64-decoded. The returned Python value is the 1-tuple (data,),
which is truthy even when data is the empty byte string. -/
def parse_stdin_msg (m : JMsg) : Except PyErr (Option (List Nat)) :=
  if (validate_msg m).type ≠ some "stdin" then .ok none
  else match m.data with
    | none => .error .keyError
    | some d => .ok (some (b64decode d))

/-- Side effects that one iteration of ReceiveOp can apply to the child
process. ReceiveOp (server.py lines 163-180) contains no call to
start_process, so no spawn effect exists. -/
inductive Effect
  | signal_process (signum : Int)
  | stdin_write (data : List Nat)
  | stdin_close
  deriving DecidableEq, Repr

/-- Dispatch of one parsed text message inside ReceiveOp
(server.py lines 169-180): a signal message sends the signal; a stdin
message writes the decoded bytes when non-empty and closes the stdin of
the child when empty. An exception is modeled by the error case; the
surrounding LogWarning logs it and the loop continues. -/
def receive_step (m : JMsg) : Except PyErr (List Effect) :=
  match parse_signal_msg m with
  | .error e => .error e
  | .ok sig =>
    match parse_stdin_msg m with
    | .error e => .error e
    | .ok st =>
      .ok ((match sig with
            | some n => [Effect.signal_process n]
            | none => []) ++
           (match st with
            | some d =>
                if d ≠ [] then [Effect.stdin_write d] else [Effect.stdin_close]
            | none => []))

/-- Effects applied by ReceiveOp over a whole inbound message sequence
(server.py lines 163-180); a message whose handling raises contributes
nothing (LogWarning swallows the exception) and the loop continues. -/
def receive_effects : List JMsg → List Effect
  | [] => []
  | m :: rest =>
      (match receive_step m with
       | .ok e => e
       | .error _ => []) ++ receive_effects rest

/-- Outcome of communicate once the first message has been received
(server.py lines 182-203): parse_run_msg not returning a run tuple makes
communicate return at once, closing the session — the remaining inbound
messages are never received; a run tuple hands the rest of the inbound
stream to ReceiveOp while the child runs. -/
inductive SessionResult
  | no_run
  | raised (e : PyErr)
  | ran (r : RunTuple) (rest : List JMsg)
  deriving DecidableEq, Repr

/-- communicate, AWAIT_RUN step (server.py lines 182-187): receive one
message, parse it as run; on None return (session over), on a tuple
proceed to staging and spawn with the remaining messages pending. -/
def communicate_session (first : JMsg) (rest : List JMsg) : SessionResult :=
  match parse_run_msg first with
  | .error e => .raised e
  | .ok none => .no_run
  | .ok (some r) => .ran r rest

/-- True exactly when the session reached the spawn path. -/
def session_spawned : SessionResult → Bool
  | .ran _ _ => true
  | _ => false

/-- Outbound JSON messages of a session. stream_msg (server.py lines
125-127) is the object with the given type tag and the base64 encoding of
the data bytes; base64 is injective, so the payload is kept as raw bytes.
exit_msg (server.py lines 129-131) is the object with type "exit" and the
code. -/
inductive OutMsg
  | stream_msg (kind : String) (data : List Nat)
  | exit_msg (code : Int)
  deriving DecidableEq, Repr

/-- ReadOp (server.py lines 156-161): repeatedly read up to chunk_size
bytes from one pipe and send one stream message per non-empty chunk,
stopping at EOF. Its outbound contribution is one message per chunk, in
order; chunks is the sequence of non-empty reads the loop observed. -/
def read_op_msgs (kind : String) (chunks : List (List Nat)) : List OutMsg :=
  chunks.map (fun c => OutMsg.stream_msg kind c)

/-- create_subprocess_exec attaches a stdout (resp. stderr) stream object
to the process exactly when the disposition maps to PIPE under CONVERT
(server.py lines 91-95): "pipe" gives PIPE, "stdout" gives STDOUT (kernel
merge, attribute None), "null" gives DEVNULL (attribute None). -/
def has_stream (disp : String) : Bool := disp = "pipe"

/-- Kinds of the ReadOp loops communicate starts (server.py lines
193-197): one per non-None process stream attribute. -/
def read_loops (stdoutDisp stderrDisp : String) : List String :=
  (if has_stream stdoutDisp then ["stdout"] else []) ++
  (if has_stream stderrDisp then ["stderr"] else [])

/-- Messages contributed by the stdout ReadOp: none when no stdout pipe
exists (server.py lines 194-195). -/
def stdout_msgs (stdoutDisp : String) (chunks : List (List Nat)) : List OutMsg :=
  if has_stream stdoutDisp then read_op_msgs "stdout" chunks else []

/-- Messages contributed by the stderr ReadOp: none when no stderr pipe
exists (server.py lines 196-197). -/
def stderr_msgs (stderrDisp : String) (chunks : List (List Nat)) : List OutMsg :=
  if has_stream stderrDisp then read_op_msgs "stderr" chunks else []

/-- Interleaving of two lists, the standard order-preserving merge: the
scheduler may alternate the two ReadOp loops arbitrarily, but each loop
sends its own messages in order. -/
inductive Interleave {α : Type} : List α → List α → List α → Prop
  | nil : Interleave [] [] []
  | left (x : α) (xs ys zs : List α) :
      Interleave xs ys zs → Interleave (x :: xs) ys (x :: zs)
  | right (y : α) (xs ys zs : List α) :
      Interleave xs ys zs → Interleave xs (y :: ys) (y :: zs)

/-- Result of start_process (server.py lines 97-106): either the child is
created and later reaps with some exit code, or create_subprocess_exec
raises (executable missing, exec error). -/
inductive Spawned
  | ok (code : Int)
  | failed (e : PyErr)
  deriving DecidableEq, Repr

/-- Outbound traces of communicate after a run message was accepted
(server.py lines 188-203). When start_process raises, the exception
propagates out of communicate before any send — LogWarning in spawn
(server.py lines 205-215) logs it — so the trace is empty. When the child
is spawned, asyncio.wait with its default ALL_COMPLETED joins wait_op and
every running ReadOp (line 198); only after all are done is
exit_msg(code) sent (line 203), so the trace is some interleaving of the
two ReadOp message lists followed by the single exit message. -/
inductive CommTrace : Spawned → String → String → List (List Nat) →
    List (List Nat) → List OutMsg → Prop
  | failed (e : PyErr) (so se : String) (soC seC : List (List Nat)) :
      CommTrace (.failed e) so se soC seC []
  | ok (code : Int) (so se : String) (soC seC : List (List Nat))
      (merged : List OutMsg) :
      Interleave (stdout_msgs so soC) (stderr_msgs se seC) merged →
      CommTrace (.ok code) so se soC seC (merged ++ [OutMsg.exit_msg code])

/-- True for the exit message shape. -/
def is_exit_msg : OutMsg → Bool
  | .exit_msg _ => true
  | _ => false

/-- Lookup in collections.ChainMap(env, os.environ) as built in
start_process (server.py line 103): search env first, then the server
environment. Dicts are modeled as association lists; lookup returns the
first binding. -/
def chain_map_get (env osEnviron : List (String × String)) (k : String) :
    Option String :=
  match env.lookup k with
  | some v => some v
  | none => osEnviron.lookup k

/-- Filesystem paths, modeled as their lists of name components from the
root; the model is for canonical names (no "." or ".." components, no
empty component). A files key is recorded as whether the string starts
with a slash plus its components. -/
structure FileKey where
  absolute : Bool
  comps : List String
  deriving DecidableEq, Repr

/-- os.path.join(d, name) as used in TempDirectory (server.py line 79),
posixpath semantics: a name starting with a slash replaces d entirely,
otherwise the components of name are appended to d. -/
def os_path_join (d : List String) (k : FileKey) : List String :=
  if k.absolute then k.comps else d ++ k.comps

/-- open(path, "wb") (server.py line 79) creates the file exactly when
the parent directory of the target exists; fs lists the directories that
exist. TempDirectory never creates intermediate directories, so a missing
parent raises FileNotFoundError. -/
def write_target (fs : List (List String)) (p : List String) :
    Except PyErr (List String) :=
  if p.dropLast ∈ fs then .ok p else .error .fileNotFound

/-- The staging loop of TempDirectory (server.py lines 75-82): for each
(name, code) pair, open os.path.join(d, name) for writing and write the
UTF-8 encoding of code. No key is validated and no directory is created;
the first failing open aborts the loop with the exception. Returns the
list of (path, contents) writes in order. -/
def stage_files (fs : List (List String)) (d : List String) :
    List (FileKey × String) → Except PyErr (List (List String × String))
  | [] => .ok []
  | (k, code) :: rest =>
      match write_target fs (os_path_join d k) with
      | .error e => .error e
      | .ok p =>
          match stage_files fs d rest with
          | .error e => .error e
          | .ok ws => .ok ((p, code) :: ws)

/-- Concrete filesystem for evaluation: the root, the system temp
directory, and a fresh staging directory tmp/aiy-demo with nothing
beneath it. -/
def demoFs : List (List String) := [[], ["tmp"], ["tmp", "aiy-demo"]]

/-- The staging root inside demoFs. -/
def demoRoot : List String := ["tmp", "aiy-demo"]

/-- Claim C9: for every run message whose optional fields are absent,
parsing yields the defaults chunk_size = 1024, stdout = "pipe",
stderr = "pipe", empty env and empty files; fields that are present are
returned unchanged. -/
theorem claim_C9 (m : JMsg) (a : List String)
    (h : m.type = some "run") (ha : m.args = some a) :
    (m.chunk_size = none → m.stdout = none → m.stderr = none → m.env = none →
      m.files = none →
      parse_run_msg m = .ok (some ⟨a, 1024, "pipe", "pipe", [], []⟩)) ∧
    (∀ n so se ev fl, m.chunk_size = some n → m.stdout = some so →
      m.stderr = some se → m.env = some ev → m.files = some fl →
      parse_run_msg m = .ok (some ⟨a, n, so, se, ev, fl⟩)) := by
  constructor
  · intro h1 h2 h3 h4 h5
    simp [parse_run_msg, validate_msg, h, ha, h1, h2, h3, h4, h5]
  · intro n so se ev fl h1 h2 h3 h4 h5
    simp [parse_run_msg, validate_msg, h, ha, h1, h2, h3, h4, h5]

/-- Witness for claim C9: a run message with no optional fields parses to
the defaults, and one with every optional field present parses to exactly
those values. -/
theorem claim_C9_witness :
    parse_run_msg (runJ (some ["ls"]) none none none none none) =
      .ok (some ⟨["ls"], 1024, "pipe", "pipe", [], []⟩) ∧
    parse_run_msg (runJ (some ["ls"]) (some 4096) (some "null") (some "stdout")
        (some [("A", "1")]) (some [("f", "x")])) =
      .ok (some ⟨["ls"], 4096, "null", "stdout", [("A", "1")], [("f", "x")]⟩) :=
  ⟨(claim_C9 _ ["ls"] rfl rfl).1 rfl rfl rfl rfl rfl,
   (claim_C9 _ ["ls"] rfl rfl).2 4096 "null" "stdout" [("A", "1")] [("f", "x")]
     rfl rfl rfl rfl rfl⟩

/-- Claim C7: for every stdin message received after run, parsing
base64-decodes the data field; a non-empty decoded payload is written to
the stdin pipe of the child and an empty one closes that pipe. -/
theorem claim_C7 (m : JMsg) (d : String)
    (h : m.type = some "stdin") (hd : m.data = some d) :
    receive_step m =
      .ok (if b64decode d ≠ [] then [Effect.stdin_write (b64decode d)]
           else [Effect.stdin_close]) := by
  simp [receive_step, parse_signal_msg, parse_stdin_msg, validate_msg, h, hd]

/-- Witness for claim C7: the payload "aGk=" decodes to the two bytes of
"hi" and is written; the empty payload closes stdin. -/
theorem claim_C7_witness :
    receive_step (stdinJ (some "aGk=")) = .ok [Effect.stdin_write [104, 105]] ∧
    receive_step (stdinJ (some "")) = .ok [Effect.stdin_close] :=
  ⟨(claim_C7 _ "aGk=" rfl rfl).trans (by decide),
   (claim_C7 _ "" rfl rfl).trans (by decide)⟩

/-- Claim C6: the environment passed to the child maps each name present
in the env overlay to the overlay value, every other name to the value in
the server environment; on a key present in both the overlay wins. -/
theorem claim_C6 (env osEnviron : List (String × String)) (k : String) :
    (∀ v, env.lookup k = some v → chain_map_get env osEnviron k = some v) ∧
    (env.lookup k = none → chain_map_get env osEnviron k = osEnviron.lookup k) := by
  constructor
  · intro v hv
    simp [chain_map_get, hv]
  · intro h0
    simp [chain_map_get, h0]

/-- Witness for claim C6: PATH is set in both maps and the overlay value
wins; HOME is only in the server environment and that value is used. -/
theorem claim_C6_witness :
    chain_map_get [("PATH", "/overlay")] [("PATH", "/system"), ("HOME", "/root")]
      "PATH" = some "/overlay" ∧
    chain_map_get [("PATH", "/overlay")] [("PATH", "/system"), ("HOME", "/root")]
      "HOME" = some "/root" :=
  ⟨(claim_C6 _ _ "PATH").1 "/overlay" (by decide),
   ((claim_C6 _ _ "HOME").2 (by decide)).trans (by decide)⟩

/-- Claim C5: once a run has been accepted, a later message of type "run"
is ignored by the receive loop: its dispatch produces no effect at all
(ReceiveOp contains no spawn call, and neither of its two parsers fires
on the type "run"), and the effects of the session are those of the other
messages alone. -/
theorem claim_C5 (m : JMsg) (msgs : List JMsg) (h : m.type = some "run") :
    receive_step m = .ok [] ∧
    receive_effects (m :: msgs) = receive_effects msgs := by
  have hs : receive_step m = .ok [] := by
    simp [receive_step, parse_signal_msg, parse_stdin_msg, validate_msg, h]
  exact ⟨hs, by simp [receive_effects, hs]⟩

/-- Witness for claim C5: a second run message followed by a signal
message produces exactly the signal effect. -/
theorem claim_C5_witness :
    receive_effects [runJ (some ["ls"]) none none none none none,
      signalJ (some 15)] = [Effect.signal_process 15] :=
  ((claim_C5 (runJ (some ["ls"]) none none none none none)
      [signalJ (some 15)] rfl).2).trans (by decide)

/-- First inbound message of the C4 counterexample session: a stdin
command carrying the base64 of "hi". -/
def stdinFirst : JMsg := stdinJ (some "aGk=")

/-- A well-formed run message that follows it on the same session. -/
def runAfter : JMsg := runJ (some ["echo", "hi"]) none none none none none

/-- Claim C4 counterexample: when the first client message is a stdin
command, communicate returns at once — the session does NOT continue to
await a run message. A perfectly valid run message queued right behind it
is never accepted and nothing is ever spawned, refuting the claim at this
concrete input. -/
theorem claim_C4_counterexample :
    communicate_session stdinFirst [runAfter] = SessionResult.no_run ∧
    session_spawned (communicate_session stdinFirst [runAfter]) = false ∧
    parse_run_msg runAfter =
      .ok (some ⟨["echo", "hi"], 1024, "pipe", "pipe", [], []⟩) := by
  decide

/-- Claim C4 amended: a stdin or signal message arriving before run is
dropped without any dispatch (parse_run_msg yields None and raises
nothing), but the session does not keep waiting: communicate returns
immediately and no later message is processed. -/
theorem claim_C4_amended (m : JMsg) (rest : List JMsg)
    (h : m.type = some "stdin" ∨ m.type = some "signal") :
    parse_run_msg m = .ok none ∧
    communicate_session m rest = SessionResult.no_run := by
  have hp : parse_run_msg m = .ok none := by
    rcases h with h | h <;> simp [parse_run_msg, validate_msg, h]
  exact ⟨hp, by simp [communicate_session, hp]⟩

/-- Witness for the amended claim C4 at a concrete signal-first session. -/
theorem claim_C4_witness :
    parse_run_msg (signalJ (some 9)) = .ok none ∧
    communicate_session (signalJ (some 9)) [] = SessionResult.no_run :=
  claim_C4_amended (signalJ (some 9)) [] (Or.inr rfl)

/-- Every element of an interleaving comes from one of the two sides. -/
theorem interleave_mem {α : Type} {xs ys zs : List α}
    (h : Interleave xs ys zs) : ∀ z ∈ zs, z ∈ xs ∨ z ∈ ys := by
  induction h with
  | nil =>
      intro z hz
      cases hz
  | left x xs ys zs h ih =>
      intro z hz
      rcases List.mem_cons.mp hz with rfl | hz
      · exact Or.inl (List.mem_cons_self _ _)
      · rcases ih z hz with h1 | h1
        · exact Or.inl (List.mem_cons_of_mem _ h1)
        · exact Or.inr h1
  | right y xs ys zs h ih =>
      intro z hz
      rcases List.mem_cons.mp hz with rfl | hz
      · exact Or.inr (List.mem_cons_self _ _)
      · rcases ih z hz with h1 | h1
        · exact Or.inl h1
        · exact Or.inr (List.mem_cons_of_mem _ h1)

/-- Every message a ReadOp sends is a stream message of its kind. -/
theorem mem_read_op_msgs (k : String) (cs : List (List Nat)) (m : OutMsg)
    (hm : m ∈ read_op_msgs k cs) : ∃ d, m = OutMsg.stream_msg k d := by
  simp only [read_op_msgs, List.mem_map] at hm
  rcases hm with ⟨d, -, rfl⟩
  exact ⟨d, rfl⟩

/-- Every message of the stdout ReadOp is tagged "stdout". -/
theorem mem_stdout_msgs (so : String) (cs : List (List Nat)) (m : OutMsg)
    (hm : m ∈ stdout_msgs so cs) : ∃ d, m = OutMsg.stream_msg "stdout" d := by
  unfold stdout_msgs at hm
  split at hm
  · exact mem_read_op_msgs _ _ _ hm
  · cases hm

/-- Every message of the stderr ReadOp is tagged "stderr". -/
theorem mem_stderr_msgs (se : String) (cs : List (List Nat)) (m : OutMsg)
    (hm : m ∈ stderr_msgs se cs) : ∃ d, m = OutMsg.stream_msg "stderr" d := by
  unfold stderr_msgs at hm
  split at hm
  · exact mem_read_op_msgs _ _ _ hm
  · cases hm

/-- Claim C3: for a session whose child terminates normally with exit
code c in [0, 255], the outbound trace contains exactly one exit message,
its code is c, it is the last message, and everything before it is
precisely the interleaved complete output of both read loops — the exit
message is not sent until both loops reached EOF (asyncio.wait with the
default ALL_COMPLETED, server.py line 198, precedes the send on line
203). -/
theorem claim_C3 (so se : String) (soC seC : List (List Nat)) (c : Int)
    (t : List OutMsg) (ht : CommTrace (Spawned.ok c) so se soC seC t)
    (h0 : 0 ≤ c) (h255 : c ≤ 255) :
    t.countP is_exit_msg = 1 ∧
    t.getLast? = some (OutMsg.exit_msg c) ∧
    ∃ pre, t = pre ++ [OutMsg.exit_msg c] ∧
      (∀ m ∈ pre, is_exit_msg m = false) ∧
      Interleave (stdout_msgs so soC) (stderr_msgs se seC) pre := by
  cases ht
  rename_i merged hint
  have hnoexit : ∀ m ∈ merged, is_exit_msg m = false := by
    intro m hm
    rcases interleave_mem hint m hm with h1 | h1
    · rcases mem_stdout_msgs _ _ _ h1 with ⟨d, rfl⟩
      rfl
    · rcases mem_stderr_msgs _ _ _ h1 with ⟨d, rfl⟩
      rfl
  refine ⟨?_, ?_, merged, rfl, hnoexit, hint⟩
  · rw [List.countP_append]
    have h1 : merged.countP is_exit_msg = 0 := by
      rw [List.countP_eq_zero]
      intro m hm
      simp [hnoexit m hm]
    simp [h1, is_exit_msg, List.countP_cons]
  · exact List.getLast?_concat _

/-- Witness for claim C3: a pipe/pipe session whose child prints one
chunk ("A") and exits with code 7. -/
theorem claim_C3_witness :
    ([OutMsg.stream_msg "stdout" [65], OutMsg.exit_msg 7].countP is_exit_msg
      = 1) ∧
    ([OutMsg.stream_msg "stdout" [65], OutMsg.exit_msg 7].getLast? =
      some (OutMsg.exit_msg 7)) ∧
    ∃ pre, [OutMsg.stream_msg "stdout" [65], OutMsg.exit_msg 7] =
        pre ++ [OutMsg.exit_msg 7] ∧
      (∀ m ∈ pre, is_exit_msg m = false) ∧
      Interleave (stdout_msgs "pipe" [[65]]) (stderr_msgs "pipe" []) pre := by
  have h1 : stdout_msgs "pipe" [[65]] = [OutMsg.stream_msg "stdout" [65]] := by
    decide
  have h2 : stderr_msgs "pipe" ([] : List (List Nat)) = [] := by
    decide
  have hint : Interleave (stdout_msgs "pipe" [[65]]) (stderr_msgs "pipe" [])
      [OutMsg.stream_msg "stdout" [65]] := by
    rw [h1, h2]
    exact Interleave.left _ _ _ _ Interleave.nil
  exact claim_C3 "pipe" "pipe" [[65]] [] 7 _
    (CommTrace.ok 7 "pipe" "pipe" [[65]] [] _ hint) (by decide) (by decide)

/-- Claim C1 counterexample: a session whose spawn fails (executable not
found) has the empty outbound trace — in particular the trace consisting
of the exit message with code 127 is NOT a possible trace of such a
session, refuting the claim that the server sends exit 127. The exception
from create_subprocess_exec propagates out of communicate before any
send; LogWarning in the spawn handler only logs it. -/
theorem claim_C1_counterexample :
    CommTrace (Spawned.failed PyErr.fileNotFound) "pipe" "pipe" [] [] [] ∧
    ¬ CommTrace (Spawned.failed PyErr.fileNotFound) "pipe" "pipe" [] []
        [OutMsg.exit_msg 127] := by
  constructor
  · exact CommTrace.failed _ _ _ _ _
  · intro h
    cases h

/-- Claim C1 amended: when spawning the child fails, the session sends no
message at all — no exit message with any code, 127 included — and the
exception is merely logged while the session closes. -/
theorem claim_C1_amended (e : PyErr) (so se : String)
    (soC seC : List (List Nat)) (t : List OutMsg)
    (ht : CommTrace (Spawned.failed e) so se soC seC t) :
    t = [] ∧ ∀ c, OutMsg.exit_msg c ∉ t := by
  cases ht
  refine ⟨rfl, ?_⟩
  intro c hc
  cases hc

/-- Witness for the amended claim C1 at a concrete failed spawn. -/
theorem claim_C1_witness :
    (([] : List OutMsg) = []) ∧
    ∀ c, OutMsg.exit_msg c ∉ ([] : List OutMsg) :=
  claim_C1_amended PyErr.fileNotFound "pipe" "pipe" [] [] []
    (CommTrace.failed _ _ _ _ _)

/-- The merged disposition "stdout" yields no pipe object on the process. -/
theorem has_stream_merge : has_stream "stdout" = false := by decide

/-- The disposition "pipe" yields a pipe object on the process. -/
theorem has_stream_pipe : has_stream "pipe" = true := by decide

/-- Claim C8 counterexample: the run options stdout = "null",
stderr = "stdout" are both schema-legal, yet such a session starts zero
output read loops — not one, as the claim states for every session with
stderr disposition "stdout". -/
theorem claim_C8_counterexample :
    read_loops "null" "stdout" = [] ∧
    (read_loops "null" "stdout").length ≠ 1 := by
  decide

/-- Claim C8 amended: with stderr disposition "stdout" no message of type
"stderr" is ever emitted and every stream message of the session is
tagged "stdout"; at most one output read loop runs, and exactly one when
the stdout disposition is "pipe". -/
theorem claim_C8_amended (so se : String) (soC seC : List (List Nat))
    (sp : Spawned) (t : List OutMsg) (hse : se = "stdout")
    (ht : CommTrace sp so se soC seC t) :
    (∀ d, OutMsg.stream_msg "stderr" d ∉ t) ∧
    (read_loops so se).length ≤ 1 ∧
    (so = "pipe" → read_loops so se = ["stdout"]) ∧
    (∀ k d, OutMsg.stream_msg k d ∈ t → k = "stdout") := by
  have hloops : read_loops so se = if has_stream so then ["stdout"] else [] := by
    subst hse
    simp [read_loops, has_stream_merge]
  have htag : ∀ k d, OutMsg.stream_msg k d ∈ t → k = "stdout" := by
    intro k d hm
    cases ht with
    | failed =>
        cases hm
    | ok =>
        rename_i merged hint
        rcases List.mem_append.mp hm with hm1 | hm1
        · rcases interleave_mem hint _ hm1 with h1 | h1
          · rcases mem_stdout_msgs _ _ _ h1 with ⟨d2, hd2⟩
            exact (OutMsg.stream_msg.injEq _ _ _ _).mp hd2 |>.1
          · subst hse
            rcases mem_stderr_msgs _ _ _ h1 with ⟨d2, hd2⟩
            have hnil : stderr_msgs "stdout" seC = [] := by
              simp [stderr_msgs, has_stream_merge]
            rw [hnil] at h1
            cases h1
        · simp at hm1
  refine ⟨?_, ?_, ?_, htag⟩
  · intro d hd
    have h1 := htag "stderr" d hd
    exact absurd h1 (by decide)
  · rw [hloops]
    split <;> simp
  · intro hpipe
    subst hpipe
    rw [hloops]
    simp [has_stream_pipe]

/-- Witness for the amended claim C8: a session with stdout piped and
stderr merged, whose child prints one chunk ("B") and exits 0. -/
theorem claim_C8_witness :
    (∀ d, OutMsg.stream_msg "stderr" d ∉
      [OutMsg.stream_msg "stdout" [66], OutMsg.exit_msg 0]) ∧
    (read_loops "pipe" "stdout").length ≤ 1 ∧
    ("pipe" = "pipe" → read_loops "pipe" "stdout" = ["stdout"]) ∧
    (∀ k d, OutMsg.stream_msg k d ∈
      [OutMsg.stream_msg "stdout" [66], OutMsg.exit_msg 0] → k = "stdout") := by
  have h1 : stdout_msgs "pipe" [[66]] = [OutMsg.stream_msg "stdout" [66]] := by
    decide
  have h2 : stderr_msgs "stdout" ([] : List (List Nat)) = [] := by
    decide
  have hint : Interleave (stdout_msgs "pipe" [[66]]) (stderr_msgs "stdout" [])
      [OutMsg.stream_msg "stdout" [66]] := by
    rw [h1, h2]
    exact Interleave.left _ _ _ _ Interleave.nil
  exact claim_C8_amended "pipe" "stdout" [[66]] [] (Spawned.ok 0) _ rfl
    (CommTrace.ok 0 "pipe" "stdout" [[66]] [] _ hint)

/-- A list is a prefix of itself followed by anything, in Bool form. -/
theorem isPrefixOf_append (d m : List String) : d.isPrefixOf (d ++ m) = true := by
  induction d with
  | nil => simp [List.isPrefixOf]
  | cons x xs ih => simp [List.isPrefixOf, ih]

/-- Claim C2, evaluated at the failing input: staging joins each files
key to the staging root with os.path.join, so an absolute key replaces
the root entirely. With staging root tmp/aiy-demo, the key
/tmp/outside.txt is accepted — nothing is rejected — and the file is
created at tmp/outside.txt, which is not under the staging root. -/
theorem claim_C2_bug :
    stage_files demoFs demoRoot [(⟨true, ["tmp", "outside.txt"]⟩, "x")] =
      .ok [(["tmp", "outside.txt"], "x")] ∧
    demoRoot.isPrefixOf ["tmp", "outside.txt"] = false := by
  decide

/-- Claim C10 counterexample: the key /tmp/escape.py has an intermediate
directory component, yet staging does not raise — it succeeds and creates
the file, at a location that is not a flat name under the staging root,
refuting both halves of the claim at this concrete input. -/
theorem claim_C10_counterexample :
    stage_files demoFs demoRoot [(⟨true, ["tmp", "escape.py"]⟩, "y")] =
      .ok [(["tmp", "escape.py"], "y")] ∧
    2 ≤ (FileKey.mk true ["tmp", "escape.py"]).comps.length ∧
    demoRoot.isPrefixOf ["tmp", "escape.py"] = false := by
  decide

/-- Claim C10 amended: for a relative files key made of ordinary name
components, one with an intermediate directory component fails — the
staging directory is fresh, nothing exists beneath it, and TempDirectory
never creates intermediate directories — while a flat relative key
succeeds and is created directly under the root. (Absolute keys, as the
counterexample shows, can instead succeed by escaping the root.) -/
theorem claim_C10_amended (fs : List (List String)) (d : List String)
    (c1 c2 : String) (cs : List String) (code : String)
    (hd : d ∈ fs)
    (hfresh : ∀ e ∈ fs, d.isPrefixOf e = true → e = d) :
    stage_files fs d [(⟨false, c1 :: c2 :: cs⟩, code)] =
      .error .fileNotFound ∧
    ∀ cflat : String, stage_files fs d [(⟨false, [cflat]⟩, code)] =
      .ok [(d ++ [cflat], code)] := by
  constructor
  · have hjoin : os_path_join d ⟨false, c1 :: c2 :: cs⟩ = d ++ c1 :: c2 :: cs := by
      simp [os_path_join]
    have hparent : (d ++ c1 :: c2 :: cs).dropLast =
        d ++ (c1 :: c2 :: cs).dropLast := List.dropLast_append_cons
    have hnot : d ++ (c1 :: c2 :: cs).dropLast ∉ fs := by
      intro hmem
      have heq := hfresh _ hmem (isPrefixOf_append d _)
      have hlen := congrArg List.length heq
      simp [List.length_dropLast] at hlen
    have hwt : write_target fs (os_path_join d ⟨false, c1 :: c2 :: cs⟩) =
        .error .fileNotFound := by
      rw [hjoin]
      unfold write_target
      rw [hparent, if_neg hnot]
    simp [stage_files, hwt]
  · intro cflat
    have hwt2 : write_target fs (os_path_join d ⟨false, [cflat]⟩) =
        .ok (d ++ [cflat]) := by
      unfold write_target os_path_join
      simp [hd]
    simp [stage_files, hwt2]

/-- Witness for the amended claim C10: under the fresh staging root
tmp/aiy-demo, the nested key sub/main.py raises FileNotFoundError while
the flat key main.py is written directly under the root. -/
theorem claim_C10_witness :
    stage_files demoFs demoRoot [(⟨false, ["sub", "main.py"]⟩, "p")] =
      .error .fileNotFound ∧
    stage_files demoFs demoRoot [(⟨false, ["main.py"]⟩, "p")] =
      .ok [(demoRoot ++ ["main.py"], "p")] :=
  ⟨(claim_C10_amended demoFs demoRoot "sub" "main.py" [] "p" (by decide)
      (by decide)).1,
   (claim_C10_amended demoFs demoRoot "sub" "main.py" [] "p" (by decide)
      (by decide)).2 "main.py"⟩
